import Mathlib

/-!
Verification of the Session-Backed Authentication Bridge and Request
Forwarding Gateway of `src/frontend/app.py` (a Flask application).

The embedding models Python/JSON values with an inductive `Json` type,
Python truthiness with `Json.pyTruthy`, the Flask session with a record of
the three keys the application writes (`user_data`, `access_token`,
`refresh_token`) plus the `permanent` flag, and the outbound HTTP layer
(the `requests` library) with an explicit `OutboundRequest` descriptor and
a `transport` function parameter giving each request's outcome.  A
transport outcome of `fail` stands for any
`requests.exceptions.RequestException` — connection refused, timeout, DNS
failure, and (with requests ≥ 2.27, where `Response.json()` raises
`requests.exceptions.JSONDecodeError`, a `RequestException` subclass) a
malformed response body.
-/

/-- A JSON value as produced by `Response.json()`, also used for Python
values stored in the session (`None` is `Json.null`).  JSON numbers are
modelled as integers; no behaviour verified here inspects a number. -/
inductive Json where
  | null
  | bool (b : Bool)
  | num (n : Int)
  | str (s : String)
  | arr (elems : List Json)
  | obj (fields : List (String × Json))

/-- Python truthiness of a value: `None`, `False`, `0`, `""`, `[]` and
an empty dict are falsy, everything else is truthy. -/
def Json.pyTruthy : Json → Bool
  | .null => false
  | .bool b => b
  | .num n => n != 0
  | .str s => s != ""
  | .arr elems => !elems.isEmpty
  | .obj fields => !fields.isEmpty

/-- Python `dict.get(k)` on a JSON object's field list: `None` when the key
is absent, the stored value otherwise (which may itself be `None`). -/
def dictGet (fields : List (String × Json)) (k : String) : Json :=
  (fields.lookup k).getD Json.null

/-- Python `dict.get(k, default)`: the stored value when the key is present
(even when that value is `None`), the default otherwise. -/
def dictGetD (fields : List (String × Json)) (k : String) (d : Json) : Json :=
  (fields.lookup k).getD d

/-- Python f-string interpolation of a value, as in `f'Bearer {token}'`.
String values interpolate verbatim.  The `repr` of containers is not
modelled precisely (no code path verified here interpolates a container):
placeholders are used for lists and dicts. -/
def pyStr : Json → String
  | .null => "None"
  | .bool true => "True"
  | .bool false => "False"
  | .num n => toString n
  | .str s => s
  | .arr _ => "<list>"
  | .obj _ => "<dict>"

/-- A payload dictionary handed to `api_request` (`data=`): query
parameters for GET, the JSON body for POST/PUT.  The payloads the
application builds are flat string-to-string dictionaries. -/
abbrev Payload := List (String × String)

/-- The `User` model (class `User(UserMixin)`): each profile field is set
with `user_data.get(...)`, so a missing key yields `None` (`Json.null`). -/
structure User where
  id : Json
  email : Json
  first_name : Json
  last_name : Json
  role : Json
  department : Json
  job_title : Json
  avatar : Json
  token : Json

/-- `User.__init__(user_data, token)`: copies the eight profile fields out
of the `user_data` dict with `.get` and stores the token. -/
def User.ofData (d : List (String × Json)) (tok : Json) : User :=
  { id := dictGet d "id"
    email := dictGet d "email"
    first_name := dictGet d "firstName"
    last_name := dictGet d "lastName"
    role := dictGet d "role"
    department := dictGet d "department"
    job_title := dictGet d "jobTitle"
    avatar := dictGet d "avatar"
    token := tok }

/-- The server-side session record: the three keys the application writes,
each `none` when the key is absent, plus the `session.permanent` flag. -/
structure SessionState where
  user_data : Option Json
  access_token : Option Json
  refresh_token : Option Json
  permanent : Bool

/-- A session holding no keys (the state before any login). -/
def SessionState.empty : SessionState :=
  { user_data := none, access_token := none, refresh_token := none, permanent := false }

/-- `session.clear()`: removes every key from the session. -/
def SessionState.clear (_s : SessionState) : SessionState :=
  SessionState.empty

/-- `load_user` (the `flask_login` user loader): reads `user_data` and
`access_token` from the session with `session.get`; when both are truthy it
builds `User(user_data, token)`, otherwise it returns `None`.  Building the
`User` raises `AttributeError` when the stored `user_data` is truthy but
not a dict (`.get` on a non-dict); that exception is modelled with
`Except.error`. -/
def load_user (s : SessionState) : Except String (Option User) :=
  let ud := s.user_data.getD Json.null
  let tok := s.access_token.getD Json.null
  if ud.pyTruthy && tok.pyTruthy then
    match ud with
    | .obj fields => .ok (some (User.ofData fields tok))
    | _ => .error "AttributeError"
  else
    .ok none

/-- The HTTP method actually dispatched by `api_request`. -/
inductive Method where
  | GET
  | POST
  | PUT
  | DELETE
deriving Repr, DecidableEq

/-- The outbound call handed to the `requests` library: method, full URL,
header dictionary, query parameters (`params=`), JSON body (`json=`) and
timeout in seconds. -/
structure OutboundRequest where
  method : Method
  url : String
  headers : List (String × String)
  params : Option Payload
  jsonBody : Option Payload
  timeout : Nat
deriving Repr, DecidableEq

/-- Header construction in `api_request`: always `Content-Type`; then
`Authorization: Bearer <token>` from the explicit `token` argument when it
is truthy (`if token:`), else from `current_user.token` when a user is
authenticated (`elif current_user.is_authenticated:`), else no
`Authorization` header. -/
def build_headers (token : Option String) (cu : Option User) : List (String × String) :=
  [("Content-Type", "application/json")] ++
    (match token with
     | some t =>
       if t != "" then [("Authorization", "Bearer " ++ t)]
       else
         match cu with
         | some u => [("Authorization", "Bearer " ++ pyStr u.token)]
         | none => []
     | none =>
       match cu with
       | some u => [("Authorization", "Bearer " ++ pyStr u.token)]
       | none => [])

/-- The outcome of one outbound transport call: a parsed JSON body, or any
`requests.exceptions.RequestException` (connection refused, timeout, DNS
failure, malformed JSON body). -/
inductive TransportOutcome where
  | ok (body : Json)
  | fail

/-- What `api_request` returns to its caller: Python `None` (unrecognized
method) or a JSON value. -/
inductive ApiResult where
  | pyNone
  | json (j : Json)

/-- Python truthiness of an `api_request` return value (`if response:`). -/
def ApiResult.pyTruthy : ApiResult → Bool
  | .pyNone => false
  | .json j => j.pyTruthy

/-- One run of `api_request`: the outbound request it dispatched (`none`
when no dispatch was attempted) and what it returned. -/
structure ApiCall where
  request : Option OutboundRequest
  result : ApiResult

/-- The synthetic failure object `{'success': False, 'error': 'API
connection failed'}` returned on any caught transport exception. -/
def connectionFailure : Json :=
  .obj [("success", .bool false), ("error", .str "API connection failed")]

/-- The per-method dispatch of `api_request`: the outbound request the
if/elif chain hands to the `requests` library — GET sends `data` as query
parameters, POST/PUT send `data` as a JSON body, DELETE sends neither —
or `none` for any other method (the `else: return None` branch). -/
def build_request (base : String) (method endpoint : String) (data : Option Payload)
    (token : Option String) (cu : Option User) : Option OutboundRequest :=
  let url := base ++ endpoint
  let headers := build_headers token cu
  if method = "GET" then
    some { method := .GET, url := url, headers := headers, params := data,
           jsonBody := none, timeout := 10 }
  else if method = "POST" then
    some { method := .POST, url := url, headers := headers, params := none,
           jsonBody := data, timeout := 10 }
  else if method = "PUT" then
    some { method := .PUT, url := url, headers := headers, params := none,
           jsonBody := data, timeout := 10 }
  else if method = "DELETE" then
    some { method := .DELETE, url := url, headers := headers, params := none,
           jsonBody := none, timeout := 10 }
  else
    none

/-- `api_request(method, endpoint, data, token)`: builds the URL and
headers, dispatches per method (`None` without dispatching for an
unrecognized method), and on a caught `RequestException` returns the
synthetic failure object.  The function is total: it never propagates an
exception to its caller. -/
def api_request (base : String) (method endpoint : String) (data : Option Payload)
    (token : Option String) (cu : Option User)
    (transport : OutboundRequest → TransportOutcome) : ApiCall :=
  match build_request base method endpoint data token cu with
  | none => { request := none, result := .pyNone }
  | some r =>
    match transport r with
    | .ok body => { request := some r, result := .json body }
    | .fail => { request := some r, result := .json connectionFailure }

/-- The outbound request `api_request('POST', '/auth/login', ...)` builds
when no user is authenticated (login is an anonymous call). -/
def loginRequest (base email password : String) : OutboundRequest :=
  { method := .POST
    url := base ++ "/auth/login"
    headers := [("Content-Type", "application/json")]
    params := none
    jsonBody := some [("email", email), ("password", password)]
    timeout := 10 }

/-- A flashed message (`flash(message, category)`). -/
structure Flash where
  message : Json
  category : String

/-- How a route handler concludes: a redirect, a rendered template, or an
unhandled Python exception (HTTP 500). -/
inductive HttpOutcome where
  | redirectTo (target : String)
  | page (template : String)
  | pyError (exc : String)
deriving Repr, DecidableEq

/-- The observable result of one route invocation: the session afterwards,
the user handed to `flask_login.login_user` (if any), the flashed messages
and the HTTP outcome. -/
structure RouteResult where
  session : SessionState
  logged_in : Option User
  flashes : List Flash
  outcome : HttpOutcome

/-- `redirect(next_page or url_for('dashboard'))`: `next_page` when it is a
truthy string, the dashboard otherwise.  Redirect targets are modelled by
route name. -/
def nextTarget : Option String → String
  | some n => if n != "" then n else "dashboard"
  | none => "dashboard"

/-- The POST branch of the `login` route.  `cu` is `current_user` at entry
(an authenticated user is redirected to the dashboard before any backend
call).  Otherwise the handler posts the credentials anonymously to
`/auth/login`; on a truthy response with truthy `success` it stores
`user_data`, `access_token` and `refresh_token` in the session, marks the
session permanent, logs the user in, flashes a greeting and redirects; on
any falsy response or falsy `success` it flashes the error — the backend's
`error` value when the key is present, `'Login failed'` for a truthy
response without one, `'API connection failed'` for a falsy response — and
re-renders the login page without touching the session.  Indexing
failures (`response['data']['user']`, `['accessToken']`) raise. -/
def login_post (base : String) (s : SessionState) (cu : Option User)
    (nextPage : Option String) (email password : String)
    (transport : OutboundRequest → TransportOutcome) : RouteResult :=
  match cu with
  | some _ => { session := s, logged_in := none, flashes := [], outcome := .redirectTo "dashboard" }
  | none =>
    let call := api_request base "POST" "/auth/login"
      (some [("email", email), ("password", password)]) none none transport
    match call.result with
    | .pyNone =>
      { session := s, logged_in := none
        flashes := [{ message := .str "API connection failed", category := "error" }]
        outcome := .page "auth/login.html" }
    | .json j =>
      if j.pyTruthy then
        match j with
        | .obj fields =>
          if (dictGet fields "success").pyTruthy then
            match fields.lookup "data" with
            | none =>
              { session := s, logged_in := none, flashes := [], outcome := .pyError "KeyError" }
            | some dataVal =>
              match dataVal with
              | .obj dataFields =>
                match dataFields.lookup "user" with
                | none =>
                  { session := s, logged_in := none, flashes := [], outcome := .pyError "KeyError" }
                | some userData =>
                  match dataFields.lookup "accessToken" with
                  | none =>
                    { session := s, logged_in := none, flashes := [], outcome := .pyError "KeyError" }
                  | some tok =>
                    let s1 : SessionState :=
                      { user_data := some userData
                        access_token := some tok
                        refresh_token := some (dictGet dataFields "refreshToken")
                        permanent := true }
                    match userData with
                    | .obj userFields =>
                      let u := User.ofData userFields tok
                      { session := s1, logged_in := some u
                        flashes := [{ message := .str ("Welcome back, " ++ pyStr u.first_name ++ "!")
                                      category := "success" }]
                        outcome := .redirectTo (nextTarget nextPage) }
                    | _ =>
                      { session := s1, logged_in := none, flashes := []
                        outcome := .pyError "AttributeError" }
              | _ =>
                { session := s, logged_in := none, flashes := [], outcome := .pyError "TypeError" }
          else
            { session := s, logged_in := none
              flashes := [{ message := dictGetD fields "error" (.str "Login failed")
                            category := "error" }]
              outcome := .page "auth/login.html" }
        | _ =>
          { session := s, logged_in := none, flashes := [], outcome := .pyError "AttributeError" }
      else
        { session := s, logged_in := none
          flashes := [{ message := .str "API connection failed", category := "error" }]
          outcome := .page "auth/login.html" }

/-- An observable step of the `logout` route, in execution order. -/
inductive Event where
  | apiCall (request : Option OutboundRequest) (result : ApiResult)
  | logoutUser
  | sessionCleared

/-- The `logout` route.  `@login_required` redirects an unauthenticated
caller to the login view (with the login manager's flash) without touching
the session.  An authenticated caller first posts `/auth/logout` to the
backend (result ignored; `api_request` never raises), then
`logout_user()`, then `session.clear()`, a flash and a redirect to login.
The event list records the order of the side effects. -/
def logout_route (base : String) (s : SessionState) (cu : Option User)
    (transport : OutboundRequest → TransportOutcome) : List Event × RouteResult :=
  match cu with
  | none =>
    ([], { session := s, logged_in := none
           flashes := [{ message := .str "Please log in to access this page.", category := "info" }]
           outcome := .redirectTo "login" })
  | some u =>
    let call := api_request base "POST" "/auth/logout" none none (some u) transport
    ([.apiCall call.request call.result, .logoutUser, .sessionCleared],
     { session := s.clear, logged_in := none
       flashes := [{ message := .str "You have been logged out.", category := "info" }]
       outcome := .redirectTo "login" })

/-- The observable result of the proxy route: a `login_required` redirect,
or a reply recording the `data` argument passed to `api_request`, the full
`api_request` run, and the JSON body returned to the HTTP caller
(`jsonify(response)`; `jsonify(None)` serializes as JSON `null`). -/
inductive ProxyOutcome where
  | redirected (target : String)
  | replied (forwarded_data : Option Payload) (call : ApiCall) (body : Json)

/-- The `api_proxy` route (`/api/proxy/<path:endpoint>`, CSRF-exempt,
login required).  `data` is the JSON body for POST/PUT and the query
parameter dict otherwise; the route forwards
`api_request(request.method, '/' + endpoint, data)` with no explicit
token and returns the result as JSON. -/
def api_proxy (base : String) (cu : Option User) (method endpoint : String)
    (jsonBody : Option Payload) (queryArgs : Payload)
    (transport : OutboundRequest → TransportOutcome) : ProxyOutcome :=
  match cu with
  | none => .redirected "login"
  | some _ =>
    let data : Option Payload :=
      if method = "POST" || method = "PUT" then jsonBody else some queryArgs
    let call := api_request base method ("/" ++ endpoint) data none cu transport
    .replied data call
      (match call.result with
       | .json j => j
       | .pyNone => .null)

/-- The outbound request `api_request('POST', '/auth/logout')` builds for
an authenticated user `u` (no explicit token, no payload). -/
def logoutRequest (base : String) (u : User) : OutboundRequest :=
  { method := .POST
    url := base ++ "/auth/logout"
    headers := build_headers none (some u)
    params := none
    jsonBody := none
    timeout := 10 }

/-- A concrete profile dict, used to instantiate witnesses. -/
def sampleProfile : List (String × Json) :=
  [("id", .str "u1"), ("firstName", .str "Ana"), ("lastName", .str "Lee")]

/-- A concrete authenticated session, used to instantiate witnesses. -/
def sampleSession : SessionState :=
  { user_data := some (.obj sampleProfile)
    access_token := some (.str "tok1")
    refresh_token := none
    permanent := true }

/-- The user `load_user` reconstructs from `sampleSession`. -/
def sampleUser : User :=
  User.ofData sampleProfile (.str "tok1")

/-- A concrete successful backend login body, used to instantiate
witnesses. -/
def sampleLoginBody : Json :=
  .obj [("success", .bool true),
        ("data", .obj [("user", .obj sampleProfile), ("accessToken", .str "tok1")])]

/-- Helper: the request `api_request` dispatches is exactly what
`build_request` selects, never altered by the transport outcome. -/
theorem api_request_request_eq (base method endpoint : String) (data : Option Payload)
    (token : Option String) (cu : Option User)
    (transport : OutboundRequest → TransportOutcome) :
    (api_request base method endpoint data token cu transport).request =
      build_request base method endpoint data token cu := by
  unfold api_request
  cases hb : build_request base method endpoint data token cu with
  | none => rfl
  | some r => cases ht : transport r <;> simp [ht]

/-- Claim C1: on any transport-level failure (any caught
`RequestException`: connection refused, timeout, DNS failure, malformed
response), `api_request` returns exactly the synthetic object
`{'success': False, 'error': 'API connection failed'}`; it is a total
function, so it never raises to its caller. -/
theorem c1_transport_failure_returns_synthetic (base endpoint method : String)
    (data : Option Payload) (token : Option String) (cu : Option User)
    (transport : OutboundRequest → TransportOutcome)
    (hm : method = "GET" ∨ method = "POST" ∨ method = "PUT" ∨ method = "DELETE")
    (hf : ∀ r, transport r = .fail) :
    (api_request base method endpoint data token cu transport).result =
      .json (.obj [("success", .bool false), ("error", .str "API connection failed")]) := by
  rcases hm with h | h | h | h <;> subst h <;>
    simp [api_request, build_request, hf, connectionFailure]

/-- Witness for C1: a failing transport under a concrete GET. -/
theorem c1_transport_failure_returns_synthetic_witness :
    (api_request "http://localhost:5000/api/v1" "GET" "/incidents" none none none
        (fun _ => .fail)).result =
      .json (.obj [("success", .bool false), ("error", .str "API connection failed")]) :=
  c1_transport_failure_returns_synthetic _ _ _ _ _ _ _ (Or.inl rfl) (fun _ => rfl)

/-- Claim C7: a method outside GET/POST/PUT/DELETE is never dispatched (no
outbound request is built) and `api_request` returns Python `None`, a
value distinct from every JSON response and falsy to every caller — an
internal failure rather than a silent no-op. -/
theorem c7_unknown_method_no_dispatch (base endpoint method : String)
    (data : Option Payload) (token : Option String) (cu : Option User)
    (transport : OutboundRequest → TransportOutcome)
    (hm : method ≠ "GET" ∧ method ≠ "POST" ∧ method ≠ "PUT" ∧ method ≠ "DELETE") :
    (api_request base method endpoint data token cu transport).request = none ∧
    (api_request base method endpoint data token cu transport).result = .pyNone ∧
    (api_request base method endpoint data token cu transport).result.pyTruthy = false := by
  obtain ⟨h1, h2, h3, h4⟩ := hm
  refine ⟨?_, ?_, ?_⟩ <;> simp [api_request, build_request, h1, h2, h3, h4, ApiResult.pyTruthy]

/-- Witness for C7: a concrete PATCH call. -/
theorem c7_unknown_method_no_dispatch_witness :
    (api_request "http://localhost:5000/api/v1" "PATCH" "/incidents/1" none none none
        (fun _ => .fail)).request = none ∧
    (api_request "http://localhost:5000/api/v1" "PATCH" "/incidents/1" none none none
        (fun _ => .fail)).result = .pyNone ∧
    (api_request "http://localhost:5000/api/v1" "PATCH" "/incidents/1" none none none
        (fun _ => .fail)).result.pyTruthy = false :=
  c7_unknown_method_no_dispatch _ _ _ _ _ _ _
    (by refine ⟨?_, ?_, ?_, ?_⟩ <;> decide)

/-- Claim C10: a DELETE forwarded by `api_request` carries neither a JSON
body nor query parameters, whatever payload is passed in — even though the
proxy route collects the query-parameter dict for DELETE calls and passes
it as the payload. -/
theorem c10_delete_ignores_payload (base endpoint : String) (u : User)
    (jsonBody : Option Payload) (queryArgs : Payload)
    (transport : OutboundRequest → TransportOutcome) :
    (∃ call body,
      api_proxy base (some u) "DELETE" endpoint jsonBody queryArgs transport =
        .replied (some queryArgs) call body ∧
      call.request = some
        { method := .DELETE, url := base ++ ("/" ++ endpoint),
          headers := build_headers none (some u), params := none, jsonBody := none,
          timeout := 10 }) ∧
    ∀ data : Option Payload,
      (api_request base "DELETE" ("/" ++ endpoint) data none (some u) transport).request =
        some
          { method := .DELETE, url := base ++ ("/" ++ endpoint),
            headers := build_headers none (some u), params := none, jsonBody := none,
            timeout := 10 } := by
  have hreq : ∀ data : Option Payload,
      (api_request base "DELETE" ("/" ++ endpoint) data none (some u) transport).request =
        some
          { method := .DELETE, url := base ++ ("/" ++ endpoint),
            headers := build_headers none (some u), params := none, jsonBody := none,
            timeout := 10 } := by
    intro data
    rw [api_request_request_eq]
    rfl
  exact ⟨⟨_, _, rfl, hreq (some queryArgs)⟩, hreq⟩

/-- Helper: any request `build_request` selects carries exactly the
headers `build_headers` computed. -/
theorem build_request_headers (base method endpoint : String) (data : Option Payload)
    (token : Option String) (cu : Option User) (req : OutboundRequest)
    (h : build_request base method endpoint data token cu = some req) :
    req.headers = build_headers token cu := by
  unfold build_request at h
  repeat' split at h
  all_goals first
    | exact Option.noConfusion h
    | (injection h with h; subst h; rfl)

/-- Claim C5: for every dispatched request, there is exactly one
`Authorization` header when a token is resolvable and none otherwise, and
the token resolved is the explicit `token` argument when one is supplied
(a non-empty string — Python's `if token:`), else the authenticated
session user's token, else none. -/
theorem c5_authorization_header (base method endpoint : String) (data : Option Payload)
    (token : Option String) (cu : Option User)
    (transport : OutboundRequest → TransportOutcome) (req : OutboundRequest)
    (hreq : (api_request base method endpoint data token cu transport).request = some req) :
    req.headers.filter (fun h => h.1 = "Authorization") =
      ((match token with
        | some t => if t = "" then Option.map (fun (u : User) => pyStr u.token) cu else some t
        | none => Option.map (fun (u : User) => pyStr u.token) cu).map
          (fun t => ("Authorization", "Bearer " ++ t))).toList := by
  rw [api_request_request_eq] at hreq
  rw [build_request_headers base method endpoint data token cu req hreq]
  cases token with
  | none => cases cu <;> rfl
  | some t =>
    by_cases ht : t = ""
    · subst ht
      cases cu <;> rfl
    · simp [build_headers, ht]

/-- Witness for C5: an explicit token overrides the authenticated user. -/
theorem c5_authorization_header_witness :
    (OutboundRequest.headers
        { method := .GET, url := "http://localhost:5000/api/v1/incidents",
          headers := build_headers (some "override") (some sampleUser),
          params := none, jsonBody := none, timeout := 10 }).filter
      (fun h => h.1 = "Authorization") = [("Authorization", "Bearer override")] :=
  c5_authorization_header "http://localhost:5000/api/v1" "GET" "/incidents" none
    (some "override") (some sampleUser) (fun _ => .fail) _ rfl

/-- Claim C6: `load_user` yields a present principal exactly when the
session holds both a truthy user profile and a truthy access token; a
profile without a token, a token without a profile, and the empty session
all yield `None` (anonymous), never an error.  The hypothesis records that
any stored truthy profile is a dict, as the login handler stores. -/
theorem c6_load_user_present_iff (s : SessionState)
    (hwf : ∀ j, s.user_data = some j → j.pyTruthy → ∃ fields, j = Json.obj fields) :
    ((load_user s = .ok none) ∨ (∃ u, load_user s = .ok (some u))) ∧
    ((∃ u, load_user s = .ok (some u)) ↔
      ((s.user_data.getD Json.null).pyTruthy = true ∧
       (s.access_token.getD Json.null).pyTruthy = true)) ∧
    load_user SessionState.empty = .ok none := by
  refine ⟨?_, ?_, rfl⟩ <;>
    by_cases h1 : (s.user_data.getD Json.null).pyTruthy = true
  case pos | pos =>
    by_cases h2 : (s.access_token.getD Json.null).pyTruthy = true
    · cases hud : s.user_data with
      | none =>
        rw [hud] at h1
        exact absurd h1 (by simp [Json.pyTruthy])
      | some j =>
        have hjt : j.pyTruthy := by rw [hud] at h1; simpa using h1
        obtain ⟨fields, rfl⟩ := hwf j hud hjt
        rw [hud] at h1
        have hl : load_user s =
            .ok (some (User.ofData fields (s.access_token.getD Json.null))) := by
          unfold load_user
          rw [hud]
          simp only [Option.getD_some] at *
          rw [if_pos (by simp [hjt, h2])]
        first
          | exact Or.inr ⟨_, hl⟩
          | exact ⟨fun _ => ⟨h1, h2⟩, fun _ => ⟨_, hl⟩⟩
    · have hl : load_user s = .ok none := by
        unfold load_user
        rw [if_neg (by simp [h2])]
      first
        | exact Or.inl hl
        | exact ⟨fun ⟨u, hu⟩ => absurd (hl ▸ hu) (by simp), fun h => absurd h.2 h2⟩
  case neg | neg =>
    have hl : load_user s = .ok none := by
      unfold load_user
      rw [if_neg (by simp [h1])]
    first
      | exact Or.inl hl
      | exact ⟨fun ⟨u, hu⟩ => absurd (hl ▸ hu) (by simp), fun h => absurd h.1 h1⟩

/-- Witness for C6: the sample authenticated session. -/
theorem c6_load_user_present_iff_witness :
    ((load_user sampleSession = .ok none) ∨ (∃ u, load_user sampleSession = .ok (some u))) ∧
    ((∃ u, load_user sampleSession = .ok (some u)) ↔
      ((sampleSession.user_data.getD Json.null).pyTruthy = true ∧
       (sampleSession.access_token.getD Json.null).pyTruthy = true)) ∧
    load_user SessionState.empty = .ok none :=
  c6_load_user_present_iff sampleSession
    (fun j h _ => ⟨sampleProfile, by cases h; rfl⟩)

/-- Claim C8: the logout route posts the backend notification
`/auth/logout` first and clears the session afterwards, and the local
clearing is unconditional: for every transport outcome the event order is
notification, `logout_user`, `session.clear`, and the final session is
empty. -/
theorem c8_logout_notifies_then_clears (base : String) (s : SessionState) (u : User)
    (transport : OutboundRequest → TransportOutcome) :
    (∃ res, (logout_route base s (some u) transport).1 =
      [Event.apiCall (some (logoutRequest base u)) res, Event.logoutUser,
       Event.sessionCleared]) ∧
    (logout_route base s (some u) transport).2.session = SessionState.empty := by
  constructor
  · refine ⟨(api_request base "POST" "/auth/logout" none none (some u) transport).result, ?_⟩
    show [Event.apiCall
            (api_request base "POST" "/auth/logout" none none (some u) transport).request
            (api_request base "POST" "/auth/logout" none none (some u) transport).result,
          Event.logoutUser, Event.sessionCleared] = _
    rw [api_request_request_eq]
    rfl
  · rfl

/-- Claim C9: calling logout twice ends in the same state as once — the
empty session, with no loadable principal — and the second call is a plain
redirect to login, not an error; `session.clear()` on an empty session is
a no-op. -/
theorem c9_logout_idempotent (base : String) (s : SessionState) (u : User)
    (t1 t2 : OutboundRequest → TransportOutcome) :
    (logout_route base s (some u) t1).2.session = SessionState.empty ∧
    load_user (logout_route base s (some u) t1).2.session = .ok none ∧
    (logout_route base (logout_route base s (some u) t1).2.session none t2).2.session =
      (logout_route base s (some u) t1).2.session ∧
    (logout_route base (logout_route base s (some u) t1).2.session none t2).2.outcome =
      .redirectTo "login" ∧
    SessionState.clear SessionState.empty = SessionState.empty ∧
    ∀ s2 : SessionState, SessionState.clear (SessionState.clear s2) = SessionState.clear s2 :=
  ⟨rfl, rfl, rfl, rfl, rfl, fun _ => rfl⟩

/-- Counterexample to claim C2 as stated: a backend failure response that
carries no error message (`{'success': False}`) makes the login handler
flash `'Login failed'`, which is not a generic connection-failure message
(`'API connection failed'`) — while the claim allows only the backend's
message or a connection-failure message. -/
theorem c2_login_error_message_counterexample :
    (login_post "http://localhost:5000/api/v1" SessionState.empty none none
        "ana@example.com" "pw"
        (fun _ => .ok (.obj [("success", .bool false)]))).flashes =
      [{ message := .str "Login failed", category := "error" }] ∧
    Json.str "Login failed" ≠ Json.str "API connection failed" := by
  refine ⟨rfl, fun h => ?_⟩
  injection h with h
  exact absurd h (by decide)

/-- Claim C2 (amended): on backend-reported failure or transport failure,
the login handler performs no session mutation and logs nobody in; the
flashed error is `'API connection failed'` on transport failure, the
backend's `error` value when a truthy failure response carries the key,
`'Login failed'` for a truthy failure response without it, and
`'API connection failed'` again when the failure response is falsy. -/
theorem c2_login_failure_no_mutation (base : String) (s : SessionState)
    (nextPage : Option String) (email password : String)
    (transport : OutboundRequest → TransportOutcome)
    (hfail : transport (loginRequest base email password) = .fail ∨
      ∃ fields, transport (loginRequest base email password) = .ok (.obj fields) ∧
        (dictGet fields "success").pyTruthy = false) :
    (login_post base s none nextPage email password transport).session = s ∧
    (login_post base s none nextPage email password transport).logged_in = none ∧
    (transport (loginRequest base email password) = .fail →
      (login_post base s none nextPage email password transport).flashes =
        [{ message := .str "API connection failed", category := "error" }]) ∧
    (∀ fields, transport (loginRequest base email password) = .ok (.obj fields) →
      (dictGet fields "success").pyTruthy = false → fields ≠ [] →
      (login_post base s none nextPage email password transport).flashes =
        [{ message := dictGetD fields "error" (.str "Login failed"),
           category := "error" }]) ∧
    (∀ j, transport (loginRequest base email password) = .ok j →
      j.pyTruthy = false →
      (login_post base s none nextPage email password transport).flashes =
        [{ message := .str "API connection failed", category := "error" }]) := by
  have hb : build_request base "POST" "/auth/login"
      (some [("email", email), ("password", password)]) none none =
      some (loginRequest base email password) := rfl
  rcases hfail with hf | ⟨fields, hok, hsf⟩
  · have hcall : api_request base "POST" "/auth/login"
        (some [("email", email), ("password", password)]) none none transport =
        { request := some (loginRequest base email password),
          result := .json connectionFailure } := by
      unfold api_request
      simp only [hb, hf]
    have hpost : login_post base s none nextPage email password transport =
        { session := s, logged_in := none
          flashes := [{ message := .str "API connection failed", category := "error" }]
          outcome := .page "auth/login.html" } := by
      unfold login_post
      rw [hcall]
      rfl
    refine ⟨by rw [hpost], by rw [hpost], fun _ => by rw [hpost], ?_, ?_⟩
    · intro fields hok
      rw [hf] at hok
      exact absurd hok (by intro h; cases h)
    · intro j hok
      rw [hf] at hok
      exact absurd hok (by intro h; cases h)
  · have hcall : api_request base "POST" "/auth/login"
        (some [("email", email), ("password", password)]) none none transport =
        { request := some (loginRequest base email password),
          result := .json (.obj fields) } := by
      unfold api_request
      simp only [hb, hok]
    cases fields with
    | nil =>
      have hpost : login_post base s none nextPage email password transport =
          { session := s, logged_in := none
            flashes := [{ message := .str "API connection failed", category := "error" }]
            outcome := .page "auth/login.html" } := by
        unfold login_post
        rw [hcall]
        rfl
      refine ⟨by rw [hpost], by rw [hpost], ?_, ?_, ?_⟩
      · intro hf
        rw [hf] at hok
        exact absurd hok (by intro h; cases h)
      · intro fields2 hok2 _ hne2
        rw [hok] at hok2
        injection hok2 with hok2
        injection hok2 with hok2
        exact absurd hok2.symm hne2
      · intro j hok2 _
        rw [hpost]
    | cons p ps =>
      have hpost : login_post base s none nextPage email password transport =
          { session := s, logged_in := none
            flashes := [{ message := dictGetD (p :: ps) "error" (.str "Login failed"),
                          category := "error" }]
            outcome := .page "auth/login.html" } := by
        unfold login_post
        rw [hcall]
        simp only [hsf]
        simp [Json.pyTruthy]
      refine ⟨by rw [hpost], by rw [hpost], ?_, ?_, ?_⟩
      · intro hf
        rw [hf] at hok
        exact absurd hok (by intro h; cases h)
      · intro fields2 hok2 _ _
        rw [hok] at hok2
        injection hok2 with hok2
        injection hok2 with hok2
        rw [hpost, hok2]
      · intro j hok2 hjf
        rw [hok] at hok2
        injection hok2 with hok2
        rw [← hok2] at hjf
        exact absurd hjf (by simp [Json.pyTruthy])

/-- Witness for (amended) C2: transport failure during a concrete login
leaves the empty session empty, logs nobody in, and flashes the
connection-failure message. -/
theorem c2_login_failure_no_mutation_witness :
    (login_post "http://localhost:5000/api/v1" SessionState.empty none none
        "ana@example.com" "pw" (fun _ => TransportOutcome.fail)).session =
      SessionState.empty ∧
    (login_post "http://localhost:5000/api/v1" SessionState.empty none none
        "ana@example.com" "pw" (fun _ => TransportOutcome.fail)).logged_in = none ∧
    (login_post "http://localhost:5000/api/v1" SessionState.empty none none
        "ana@example.com" "pw" (fun _ => TransportOutcome.fail)).flashes =
      [{ message := .str "API connection failed", category := "error" }] := by
  obtain ⟨h1, h2, h3, _, _⟩ :=
    c2_login_failure_no_mutation "http://localhost:5000/api/v1" SessionState.empty none
      "ana@example.com" "pw" (fun _ => TransportOutcome.fail) (Or.inl rfl)
  exact ⟨h1, h2, h3 rfl⟩

/-- Claim C3: a successful backend login response containing a (nonempty)
`user` object and a (nonempty string) `accessToken`, run through the login
handler and immediately reloaded with `load_user`, yields a present
principal whose eight profile fields are exactly the backend `user`
object's fields and whose token is the backend's `accessToken`. -/
theorem c3_login_then_load_roundtrip (base : String) (s : SessionState)
    (nextPage : Option String) (email password : String)
    (transport : OutboundRequest → TransportOutcome)
    (respFields dataFields userFields : List (String × Json)) (tok : String)
    (hresp : transport (loginRequest base email password) = .ok (.obj respFields))
    (hsucc : (dictGet respFields "success").pyTruthy = true)
    (hdata : respFields.lookup "data" = some (.obj dataFields))
    (huser : dataFields.lookup "user" = some (.obj userFields))
    (htok : dataFields.lookup "accessToken" = some (.str tok))
    (hne : userFields ≠ [])
    (htne : tok ≠ "") :
    ∃ u, load_user (login_post base s none nextPage email password transport).session =
        .ok (some u) ∧
      u.id = dictGet userFields "id" ∧
      u.email = dictGet userFields "email" ∧
      u.first_name = dictGet userFields "firstName" ∧
      u.last_name = dictGet userFields "lastName" ∧
      u.role = dictGet userFields "role" ∧
      u.department = dictGet userFields "department" ∧
      u.job_title = dictGet userFields "jobTitle" ∧
      u.avatar = dictGet userFields "avatar" ∧
      u.token = .str tok := by
  have hb : build_request base "POST" "/auth/login"
      (some [("email", email), ("password", password)]) none none =
      some (loginRequest base email password) := rfl
  have hcall : api_request base "POST" "/auth/login"
      (some [("email", email), ("password", password)]) none none transport =
      { request := some (loginRequest base email password),
        result := .json (.obj respFields) } := by
    unfold api_request
    simp only [hb, hresp]
  have hne2 : respFields ≠ [] := by
    intro h
    rw [h] at hsucc
    exact absurd hsucc (by simp [dictGet, Json.pyTruthy])
  have htruthy : (Json.obj respFields).pyTruthy = true := by
    cases respFields with
    | nil => exact absurd rfl hne2
    | cons p ps => simp [Json.pyTruthy]
  have hpost : (login_post base s none nextPage email password transport).session =
      { user_data := some (.obj userFields), access_token := some (.str tok),
        refresh_token := some (dictGet dataFields "refreshToken"), permanent := true } := by
    unfold login_post
    rw [hcall]
    simp only [htruthy, hsucc, hdata, huser, htok]
    simp
  refine ⟨User.ofData userFields (.str tok), ?_, rfl, rfl, rfl, rfl, rfl, rfl, rfl, rfl, rfl⟩
  rw [hpost]
  unfold load_user
  have hu : (Json.obj userFields).pyTruthy = true := by
    cases userFields with
    | nil => exact absurd rfl hne
    | cons p ps => simp [Json.pyTruthy]
  have ht : (Json.str tok).pyTruthy = true := by simp [Json.pyTruthy, htne]
  simp only [Option.getD_some]
  rw [if_pos (by simp [hu, ht])]

/-- Witness for C3: a concrete successful login body round-trips into the
reconstructed principal. -/
theorem c3_login_then_load_roundtrip_witness :
    ∃ u, load_user (login_post "http://localhost:5000/api/v1" SessionState.empty none none
          "ana@example.com" "pw" (fun _ => .ok sampleLoginBody)).session = .ok (some u) ∧
      u.id = dictGet sampleProfile "id" ∧
      u.email = dictGet sampleProfile "email" ∧
      u.first_name = dictGet sampleProfile "firstName" ∧
      u.last_name = dictGet sampleProfile "lastName" ∧
      u.role = dictGet sampleProfile "role" ∧
      u.department = dictGet sampleProfile "department" ∧
      u.job_title = dictGet sampleProfile "jobTitle" ∧
      u.avatar = dictGet sampleProfile "avatar" ∧
      u.token = .str "tok1" :=
  c3_login_then_load_roundtrip "http://localhost:5000/api/v1" SessionState.empty none
    "ana@example.com" "pw" (fun _ => .ok sampleLoginBody)
    [("success", .bool true),
     ("data", .obj [("user", .obj sampleProfile), ("accessToken", .str "tok1")])]
    [("user", .obj sampleProfile), ("accessToken", .str "tok1")]
    sampleProfile "tok1" rfl rfl rfl rfl rfl (by simp [sampleProfile]) (by decide)

/-- Claim C4: an authenticated GET proxy call forwards method GET, path
`'/' + endpoint`, the query-parameter dict as payload and the session
user's bearer token, and returns the backend's JSON body unmodified as the
HTTP response body. -/
theorem c4_proxy_get_forwards_and_returns_body (base endpoint : String)
    (s : SessionState) (u : User) (jsonBody : Option Payload) (queryArgs : Payload)
    (body : Json) (transport : OutboundRequest → TransportOutcome)
    (_hauth : load_user s = .ok (some u))
    (htr : transport
        { method := .GET, url := base ++ ("/" ++ endpoint),
          headers := build_headers none (some u), params := some queryArgs,
          jsonBody := none, timeout := 10 } = .ok body) :
    api_proxy base (some u) "GET" endpoint jsonBody queryArgs transport =
      .replied (some queryArgs)
        { request := some
            { method := .GET, url := base ++ ("/" ++ endpoint),
              headers := build_headers none (some u), params := some queryArgs,
              jsonBody := none, timeout := 10 }
          result := .json body }
        body ∧
    build_headers none (some u) =
      [("Content-Type", "application/json"),
       ("Authorization", "Bearer " ++ pyStr u.token)] := by
  constructor
  · have hb : build_request base "GET" ("/" ++ endpoint) (some queryArgs) none (some u) =
        some { method := .GET, url := base ++ ("/" ++ endpoint),
               headers := build_headers none (some u), params := some queryArgs,
               jsonBody := none, timeout := 10 } := rfl
    unfold api_proxy
    unfold api_request
    simp [hb, htr]
  · rfl

/-- Witness for C4: a concrete authenticated proxy GET for
`/incidents?state=OPEN`. -/
theorem c4_proxy_get_forwards_and_returns_body_witness :
    api_proxy "http://localhost:5000/api/v1" (some sampleUser) "GET" "incidents" none
        [("state", "OPEN")]
        (fun _ => .ok (.obj [("success", .bool true), ("data", .arr [])])) =
      .replied (some [("state", "OPEN")])
        { request := some
            { method := .GET, url := "http://localhost:5000/api/v1" ++ ("/" ++ "incidents"),
              headers := build_headers none (some sampleUser),
              params := some [("state", "OPEN")], jsonBody := none, timeout := 10 }
          result := .json (.obj [("success", .bool true), ("data", .arr [])]) }
        (.obj [("success", .bool true), ("data", .arr [])]) ∧
    build_headers none (some sampleUser) =
      [("Content-Type", "application/json"),
       ("Authorization", "Bearer " ++ pyStr sampleUser.token)] :=
  c4_proxy_get_forwards_and_returns_body "http://localhost:5000/api/v1" "incidents"
    sampleSession sampleUser none [("state", "OPEN")]
    (.obj [("success", .bool true), ("data", .arr [])]) _ rfl rfl
